import Mathlib

/-!
Shallow embedding of the Inclinometer repository (three C files for the
RP2350 microcontroller: `Inclinometer.c`, a powman deep-sleep example
(`part_000`), and an SPI accelerometer poller (`part_001`)).

Each C function is translated into a Lean definition that produces the
list of externally visible hardware actions (register writes, GPIO
configuration, oscillator/processor control) the function performs, in
program order.  Register values are `Nat` with explicit masking where
C integer conversions matter.  Vendor SDK register-field constants
(`POWMAN_*`, `USB_USBPHY_*`) are reproduced from the RP2350 SDK headers
(`hardware/regs/powman.h`, `hardware/regs/usb.h`); the theorems below
depend only on the field structure (which bits belong to which field),
not on the absolute bit positions.
-/

/-- Hardware registers touched by the three programs. -/
inductive Reg where
  | powman_state
  | powman_pwrup0
  | powman_vreg_lp_entry
  | powman_vreg_ctrl
  | powman_scratch0
  | usb_phy_direct
  | usb_phy_direct_override
  deriving DecidableEq, Repr

/-- Externally visible actions performed by the programs, in program order.
`regWrite` is a plain store (`r = v`), `regSetBits` is the SDK's
`hw_set_bits` (atomic OR), `regWriteMasked` is `hw_write_masked`
(`r = (r & ~mask) | (v & mask)`), `regInc` is `r++`. -/
inductive Event where
  | regWrite (r : Reg) (v : Nat)
  | regSetBits (r : Reg) (bits : Nat)
  | regWriteMasked (r : Reg) (v : Nat) (mask : Nat)
  | regInc (r : Reg)
  | gpioInit (pin : Nat)
  | gpioSetDir (pin : Nat) (out : Bool)
  | gpioSetDirAll (bits : Nat)
  | gpioPullDown (pin : Nat)
  | gpioDisablePulls (pin : Nat)
  | gpioSetInputEnabled (pin : Nat) (en : Bool)
  | gpioSetFunction (pin : Nat) (fn : Nat)
  | gpioPut (pin : Nat) (hi : Bool)
  | gpioToggle (pin : Nat)
  | setSysClock48mhz
  | setSysClockKhz (khz : Nat)
  | stdioInitAll
  | sleepMs (ms : Nat)
  | xoscDormant
  | wfi
  | nop
  | tightLoopContents
  | spiInit (baud : Nat)
  | spiSetFormat
  | spiWrite (bytes : List Nat)
  | spiRead (len : Nat)
  | powmanExampleInit (absTimeMs : Nat)
  | powmanEnableAlarmWakeupAtMs (absTimeMs : Nat)
  | powmanOffRequest
  | addRepeatingTimerMs (intervalMs : Nat)
  | flagWrite (v : Bool)
  | printfSample
  | ret (code : Int)
  deriving DecidableEq, Repr

/-! ## Vendor SDK constants (RP2350 headers) -/

/-- SDK `hardware/regs/powman.h`: the four STATE.REQ bits occupy register
bits 7..4 of `powman_hw->state` (one request bit per power domain). -/
def POWMAN_STATE_REQ_BITS : Nat := 0xF0

/-- SDK header: request bit for the switched-core power domain (bit 7). -/
def POWMAN_STATE_REQ_SWCORE_LSB : Nat := 7

/-- SDK header: request bit for the XIP-cache power domain (bit 6). -/
def POWMAN_STATE_REQ_XIP_LSB : Nat := 6

/-- SDK header: request bit for the SRAM0 power domain (bit 5). -/
def POWMAN_STATE_REQ_SRAM0_LSB : Nat := 5

/-- SDK header: request bit for the SRAM1 power domain (bit 4). -/
def POWMAN_STATE_REQ_SRAM1_LSB : Nat := 4

/-- SDK header: PWRUP0.SOURCE field (GPIO number), bits 5..0. -/
def POWMAN_PWRUP0_SOURCE_LSB : Nat := 0

/-- SDK header: PWRUP0.ENABLE bit. -/
def POWMAN_PWRUP0_ENABLE_LSB : Nat := 6

/-- SDK header: PWRUP0.DIRECTION bit (0 = low/falling, 1 = high/rising). -/
def POWMAN_PWRUP0_DIRECTION_LSB : Nat := 7

/-- SDK header: PWRUP0.MODE bit (0 = level, 1 = edge). -/
def POWMAN_PWRUP0_MODE_LSB : Nat := 8

/-- SDK header: PWRUP0.STATUS latched-edge bit (write 1 to clear). -/
def POWMAN_PWRUP0_STATUS_LSB : Nat := 9

/-- SDK header: DIRECTION field value selecting high level / rising edge. -/
def POWMAN_PWRUP0_DIRECTION_VALUE_HIGH_RISING : Nat := 1

/-- SDK header: MODE field value selecting level detection. -/
def POWMAN_PWRUP0_MODE_VALUE_LEVEL : Nat := 0

/-! ## Inclinometer.c -/

/-- `#define WAKE_PIN 22` in `Inclinometer.c`. -/
def WAKE_PIN : Nat := 22

/-- `#define PICO_DEFAULT_LED_PIN 25` (default LED pin). -/
def PICO_DEFAULT_LED_PIN : Nat := 25

/-- The macro `RP2350_STATE_REQ_P1_7_ALL_OFF` from `Inclinometer.c`,
with the grouping C operator precedence gives it: `&` binds tighter
than `|`, so the mask `POWMAN_STATE_REQ_BITS` applies only to the
SWCORE term, and the remaining three terms are ORed in unmasked. -/
def RP2350_STATE_REQ_P1_7_ALL_OFF : Nat :=
  (POWMAN_STATE_REQ_BITS &&& (1 <<< POWMAN_STATE_REQ_SWCORE_LSB)) |||
  (1 <<< POWMAN_STATE_REQ_XIP_LSB) |||
  (1 <<< POWMAN_STATE_REQ_SRAM0_LSB) |||
  (1 <<< POWMAN_STATE_REQ_SRAM1_LSB)

/-- `enter_dormant_p1_7` from `Inclinometer.c`: set the state-request
bits (`hw_set_bits(&powman_hw->state, 0xF0)` with the literal
`req_state_bits = 0xF0`), stop the crystal oscillator
(`xosc_dormant()`), halt with `__wfi()`, then three `__nop()`s after
resumption. -/
def enter_dormant_p1_7 : List Event :=
  [ .regSetBits .powman_state 0xF0
  , .xoscDormant
  , .wfi
  , .nop, .nop, .nop ]

/-- The configuration word `pwrup_config` built by `setup_dormant_wakeup`:
SOURCE = the pin argument, DIRECTION = HIGH_RISING, MODE = LEVEL,
ENABLE = 1. -/
def pwrup_config (gpio_pin : Nat) : Nat :=
  (gpio_pin <<< POWMAN_PWRUP0_SOURCE_LSB) |||
  (POWMAN_PWRUP0_DIRECTION_VALUE_HIGH_RISING <<< POWMAN_PWRUP0_DIRECTION_LSB) |||
  (POWMAN_PWRUP0_MODE_VALUE_LEVEL <<< POWMAN_PWRUP0_MODE_LSB) |||
  (1 <<< POWMAN_PWRUP0_ENABLE_LSB)

/-- `setup_dormant_wakeup(gpio_pin)` from `Inclinometer.c`: initialise
the pin as an input with pull-down, then three stores to
`powman_hw->pwrup[0]`: disable (`0 << ENABLE_LSB`), clear the latched
status (`1 << STATUS_LSB`), then the configuration word. -/
def setup_dormant_wakeup (gpio_pin : Nat) : List Event :=
  [ .gpioInit gpio_pin
  , .gpioSetDir gpio_pin false
  , .gpioPullDown gpio_pin
  , .regWrite .powman_pwrup0 (0 <<< POWMAN_PWRUP0_ENABLE_LSB)
  , .regWrite .powman_pwrup0 (1 <<< POWMAN_PWRUP0_STATUS_LSB)
  , .regWrite .powman_pwrup0 (pwrup_config gpio_pin) ]

/-! Field extractors for the PWRUP0 register (the named fields of the
SDK header, read back out of a register value). -/

/-- PWRUP0.SOURCE field of a register value (6 bits). -/
def pwrupSource (v : Nat) : Nat := (v >>> POWMAN_PWRUP0_SOURCE_LSB) % 64

/-- PWRUP0.ENABLE bit of a register value. -/
def pwrupEnable (v : Nat) : Nat := (v >>> POWMAN_PWRUP0_ENABLE_LSB) % 2

/-- PWRUP0.DIRECTION bit of a register value. -/
def pwrupDirection (v : Nat) : Nat := (v >>> POWMAN_PWRUP0_DIRECTION_LSB) % 2

/-- PWRUP0.MODE bit of a register value. -/
def pwrupMode (v : Nat) : Nat := (v >>> POWMAN_PWRUP0_MODE_LSB) % 2

/-! ## part_000 (powman deep-sleep example) -/

/-- `#define AWAKE_TIME_MS 10000` in part_000. -/
def AWAKE_TIME_MS : Nat := 10000

/-- `#define SLEEP_TIME_MS 5000` in part_000. -/
def SLEEP_TIME_MS : Nat := 5000

/-- SDK constant: number of bank-0 GPIOs on the RP2350. -/
def NUM_BANK0_GPIOS : Nat := 48

/-- SDK constant: number of ADC channels. -/
def NUM_ADC_CHANNELS : Nat := 4

/-- SDK `hardware/regs/powman.h`: password that must accompany POWMAN
writes (0x5afe in the upper half-word). -/
def POWMAN_PASSWORD_BITS : Nat := 0x5afe0000

/-- SDK enum `vreg_voltage`: selector value for 0.60 V. -/
def VREG_VOLTAGE_0_60 : Nat := 1

/-- SDK header: VREG_LP_ENTRY.VSEL field LSB. -/
def POWMAN_VREG_LP_ENTRY_VSEL_LSB : Nat := 4

/-- SDK header: VREG_LP_ENTRY.VSEL field mask (5 bits at VSEL_LSB). -/
def POWMAN_VREG_LP_ENTRY_VSEL_BITS : Nat := 0x1F0

/-- SDK header: VREG_CTRL.UNLOCK bit. -/
def POWMAN_VREG_CTRL_UNLOCK_BITS : Nat := 0x2000

/-- SDK enum `gpio_function`: SIO function select. -/
def GPIO_FUNC_SIO : Nat := 5

/-- SDK enum `gpio_function`: SPI function select. -/
def GPIO_FUNC_SPI : Nat := 1

/-! USB PHY bit constants from the SDK `hardware/regs/usb.h`
(USBPHY_DIRECT and USBPHY_DIRECT_OVERRIDE registers). -/

def USB_USBPHY_DIRECT_DP_PULLDN_EN_BITS : Nat := 1 <<< 2
def USB_USBPHY_DIRECT_DM_PULLDN_EN_BITS : Nat := 1 <<< 6
def USB_USBPHY_DIRECT_RX_PD_BITS : Nat := 1 <<< 12
def USB_USBPHY_DIRECT_TX_PD_BITS : Nat := 1 <<< 13
def USB_USBPHY_DIRECT_RX_DD_BITS : Nat := 1 <<< 16
def USB_USBPHY_DIRECT_RX_DP_BITS : Nat := 1 <<< 17
def USB_USBPHY_DIRECT_RX_DM_BITS : Nat := 1 <<< 18
def USB_USBPHY_DIRECT_OVERRIDE_DP_PULLUP_HISEL_OVERRIDE_EN_BITS : Nat := 1 <<< 0
def USB_USBPHY_DIRECT_OVERRIDE_DM_PULLUP_HISEL_OVERRIDE_EN_BITS : Nat := 1 <<< 1
def USB_USBPHY_DIRECT_OVERRIDE_DP_PULLUP_EN_OVERRIDE_EN_BITS : Nat := 1 <<< 2
def USB_USBPHY_DIRECT_OVERRIDE_DP_PULLDN_EN_OVERRIDE_EN_BITS : Nat := 1 <<< 3
def USB_USBPHY_DIRECT_OVERRIDE_DM_PULLDN_EN_OVERRIDE_EN_BITS : Nat := 1 <<< 4
def USB_USBPHY_DIRECT_OVERRIDE_TX_DP_OE_OVERRIDE_EN_BITS : Nat := 1 <<< 5
def USB_USBPHY_DIRECT_OVERRIDE_TX_DM_OE_OVERRIDE_EN_BITS : Nat := 1 <<< 6
def USB_USBPHY_DIRECT_OVERRIDE_TX_DP_OVERRIDE_EN_BITS : Nat := 1 <<< 7
def USB_USBPHY_DIRECT_OVERRIDE_TX_DM_OVERRIDE_EN_BITS : Nat := 1 <<< 8
def USB_USBPHY_DIRECT_OVERRIDE_RX_PD_OVERRIDE_EN_BITS : Nat := 1 <<< 9
def USB_USBPHY_DIRECT_OVERRIDE_TX_PD_OVERRIDE_EN_BITS : Nat := 1 <<< 10
def USB_USBPHY_DIRECT_OVERRIDE_TX_FSSLEW_OVERRIDE_EN_BITS : Nat := 1 <<< 11
def USB_USBPHY_DIRECT_OVERRIDE_TX_DIFFMODE_OVERRIDE_EN_BITS : Nat := 1 <<< 12
def USB_USBPHY_DIRECT_OVERRIDE_DM_PULLUP_OVERRIDE_EN_BITS : Nat := 1 <<< 15

/-- First value `disable_usb` stores to `usb_hw->phy_direct`. -/
def disable_usb_phy_direct_value : Nat :=
  USB_USBPHY_DIRECT_TX_PD_BITS ||| USB_USBPHY_DIRECT_RX_PD_BITS |||
  USB_USBPHY_DIRECT_DM_PULLDN_EN_BITS ||| USB_USBPHY_DIRECT_DP_PULLDN_EN_BITS

/-- Second value `disable_usb` stores to `usb_hw->phy_direct_override`. -/
def disable_usb_phy_direct_override_value : Nat :=
  USB_USBPHY_DIRECT_RX_DM_BITS ||| USB_USBPHY_DIRECT_RX_DP_BITS |||
  USB_USBPHY_DIRECT_RX_DD_BITS |||
  USB_USBPHY_DIRECT_OVERRIDE_TX_DIFFMODE_OVERRIDE_EN_BITS |||
  USB_USBPHY_DIRECT_OVERRIDE_DM_PULLUP_OVERRIDE_EN_BITS |||
  USB_USBPHY_DIRECT_OVERRIDE_TX_FSSLEW_OVERRIDE_EN_BITS |||
  USB_USBPHY_DIRECT_OVERRIDE_TX_PD_OVERRIDE_EN_BITS |||
  USB_USBPHY_DIRECT_OVERRIDE_RX_PD_OVERRIDE_EN_BITS |||
  USB_USBPHY_DIRECT_OVERRIDE_TX_DM_OVERRIDE_EN_BITS |||
  USB_USBPHY_DIRECT_OVERRIDE_TX_DP_OVERRIDE_EN_BITS |||
  USB_USBPHY_DIRECT_OVERRIDE_TX_DM_OE_OVERRIDE_EN_BITS |||
  USB_USBPHY_DIRECT_OVERRIDE_TX_DP_OE_OVERRIDE_EN_BITS |||
  USB_USBPHY_DIRECT_OVERRIDE_DM_PULLDN_EN_OVERRIDE_EN_BITS |||
  USB_USBPHY_DIRECT_OVERRIDE_DP_PULLDN_EN_OVERRIDE_EN_BITS |||
  USB_USBPHY_DIRECT_OVERRIDE_DP_PULLUP_EN_OVERRIDE_EN_BITS |||
  USB_USBPHY_DIRECT_OVERRIDE_DM_PULLUP_HISEL_OVERRIDE_EN_BITS |||
  USB_USBPHY_DIRECT_OVERRIDE_DP_PULLUP_HISEL_OVERRIDE_EN_BITS

/-- `disable_usb` from part_000: two stores, one to `usb_hw->phy_direct`
(power down TX/RX, enable DP/DM pulldowns) and one to
`usb_hw->phy_direct_override` (force the override enables). -/
def disable_usb : List Event :=
  [ .regWrite .usb_phy_direct disable_usb_phy_direct_value
  , .regWrite .usb_phy_direct_override disable_usb_phy_direct_override_value ]

/-- `enter_dormant_p1_7` as defined in part_000 (kept for debugging there,
not called from its `main`): requests all domains off with
`POWMAN_STATE_REQ_BITS`, stops the crystal oscillator, halts. -/
def enter_dormant_p1_7_p000 : List Event :=
  [ .regSetBits .powman_state POWMAN_STATE_REQ_BITS
  , .xoscDormant
  , .wfi ]

/-- Modelled from the spec: `powman_example_off_for_ms` comes from the
vendor file `powman_example.c`, which is not among this repository's
sources.  Per the repository's own comments it arms the powman alarm
(`powman_enable_alarm_wakeup_at_ms()`, here recorded with the sleep
duration) and then issues the power-off (sleep) request, returning a
status code. -/
def powman_example_off_for_ms (durationMs : Nat) : List Event :=
  [ .powmanEnableAlarmWakeupAtMs durationMs
  , .powmanOffRequest ]

/-- The GPIO loop at the top of part_000's `main`: all pins above 1 to
SIO, pulls and input disabled on the ADC-sharing pins. -/
def main_p000_gpio_setup : List Event :=
  ((List.range NUM_BANK0_GPIOS).drop 2).flatMap (fun i =>
    [Event.gpioSetFunction i GPIO_FUNC_SIO] ++
    (if NUM_BANK0_GPIOS - NUM_ADC_CHANNELS < i then
      [Event.gpioDisablePulls i, Event.gpioSetInputEnabled i false]
    else []))

/-- Straight-line part of part_000's `main` up to and including the
`powman_example_off_for_ms` call: clock to 48 MHz, GPIO low-power
setup, VREG low-power voltage (`hw_write_masked` on `vreg_lp_entry`),
VREG unlock, USB PHY disable, powman-example init, scratch increment,
awake delay, then the off-for-ms call. -/
def main_p000_init : List Event :=
  [ .setSysClock48mhz, .gpioSetDirAll 0 ] ++ main_p000_gpio_setup ++
  [ .regWriteMasked .powman_vreg_lp_entry
      (POWMAN_PASSWORD_BITS ||| (VREG_VOLTAGE_0_60 <<< POWMAN_VREG_LP_ENTRY_VSEL_LSB))
      (POWMAN_PASSWORD_BITS ||| POWMAN_VREG_LP_ENTRY_VSEL_BITS)
  , .regSetBits .powman_vreg_ctrl (POWMAN_PASSWORD_BITS ||| POWMAN_VREG_CTRL_UNLOCK_BITS) ] ++
  disable_usb ++
  [ .powmanExampleInit 1704067200000
  , .regInc .powman_scratch0
  , .sleepMs AWAKE_TIME_MS ] ++
  powman_example_off_for_ms SLEEP_TIME_MS

/-! ## part_001 (SPI accelerometer poller) -/

/-- `#define DISPLAY_INTERVAL_MS 1000`. -/
def DISPLAY_INTERVAL_MS : Nat := 1000

/-- `#define SPI_ACCEL_CS_PIN 17`. -/
def SPI_ACCEL_CS_PIN : Nat := 17

/-- `#define ADXL367_REG_DATA_START 0x0E`. -/
def ADXL367_REG_DATA_START : Nat := 0x0E

/-- `#define ADXL367_REG_POWER_CTL 0x2D`. -/
def ADXL367_REG_POWER_CTL : Nat := 0x2D

/-- `#define ADXL367_SPI_READ_CMD 0x0B`. -/
def ADXL367_SPI_READ_CMD : Nat := 0x0B

/-- `#define ADXL367_SPI_WRITE_CMD 0x0A`. -/
def ADXL367_SPI_WRITE_CMD : Nat := 0x0A

/-- `cs_select()`: drive the chip-select pin low. -/
def cs_select : List Event := [ .gpioPut SPI_ACCEL_CS_PIN false ]

/-- `cs_deselect()`: drive the chip-select pin high. -/
def cs_deselect : List Event := [ .gpioPut SPI_ACCEL_CS_PIN true ]

/-- `adxl367_write_register(reg_addr, data)`: one 3-byte SPI write
transaction (write command, register address, data) framed by
chip-select. -/
def adxl367_write_register (reg_addr data : Nat) : List Event :=
  cs_select ++ [ .spiWrite [ADXL367_SPI_WRITE_CMD, reg_addr, data] ] ++ cs_deselect

/-- `adxl367_read_registers(reg_addr, buffer, len)`: send the 2-byte read
command then read `len` bytes, framed by chip-select. -/
def adxl367_read_registers (reg_addr len : Nat) : List Event :=
  cs_select ++ [ .spiWrite [ADXL367_SPI_READ_CMD, reg_addr], .spiRead len ] ++ cs_deselect

/-- C cast `(int16_t)`: reduce modulo 2^16 and reinterpret as
two's-complement. -/
def toInt16 (n : Nat) : Int :=
  if n % 65536 < 32768 then (n % 65536 : Int) else (n % 65536 : Int) - 65536

/-- Arithmetic right shift by 2 (the target's behaviour of `>> 2` on a
negative int): floor division by 4. -/
def asr2 (i : Int) : Int := Int.fdiv i 4

/-- Sign extension of a 14-bit value to an integer. -/
def toInt14 (n : Nat) : Int :=
  if n % 16384 < 8192 then (n % 16384 : Int) else (n % 16384 : Int) - 16384

/-- Value computation of one axis in `adxl367_read_accel_data`:
`(int16_t)((data[2i] << 8) | data[2i+1]) >> 2` on `uint8_t` bytes. -/
def adxl367_axis (hi lo : Fin 256) : Int :=
  asr2 (toInt16 ((hi.val <<< 8) ||| lo.val))

/-- `adxl367_read_accel_data`, value part: the three axis values computed
from the 6-byte buffer. -/
def adxl367_read_accel_data (data : Fin 6 → Fin 256) : Int × Int × Int :=
  (adxl367_axis (data 0) (data 1), adxl367_axis (data 2) (data 3),
   adxl367_axis (data 4) (data 5))

/-- `adxl367_read_accel_data`, effect part: one read of 6 bytes starting
at `ADXL367_REG_DATA_START`. -/
def adxl367_read_accel_data_trace : List Event :=
  adxl367_read_registers ADXL367_REG_DATA_START 6

/-- The global state of part_001: its only global variable, the volatile
flag `display_update_needed`. -/
structure P1State where
  display_update_needed : Bool
  deriving DecidableEq, Repr

/-- `repeating_timer_callback`: sets `display_update_needed` and returns
`true` (keep the timer running).  It ignores its timer argument and the
previous flag value. -/
def repeating_timer_callback (_s : P1State) : P1State × Bool :=
  (⟨true⟩, true)

/-! ## Main programs as setup-then-loop shapes -/

/-- Shape of each file's `main`: a straight-line setup trace, then a
`while (cond) body` loop, then the statements after the loop.  `σ` is
the program state the loop can read and write; `ι` is the per-iteration
environment input (e.g. whether an interrupt fired). -/
structure LoopMain (σ ι : Type) where
  initTrace : List Event
  cond : σ → Bool
  body : σ → ι → List Event × σ
  afterTrace : List Event

/-- Program state after `n` loop iterations, fed by the input stream. -/
def iterState {σ ι : Type} (m : LoopMain σ ι) (s0 : σ) (inputs : Nat → ι) : Nat → σ
  | 0 => s0
  | n + 1 => (m.body (iterState m s0 inputs n) (inputs n)).2

/-- Events emitted by iteration `n` of the loop. -/
def iterTrace {σ ι : Type} (m : LoopMain σ ι) (s0 : σ) (inputs : Nat → ι)
    (n : Nat) : List Event :=
  (m.body (iterState m s0 inputs n) (inputs n)).1

/-- The loop never exits: its condition evaluates to `true` at the state
of every iteration, whatever the inputs. -/
def neverExits {σ ι : Type} (m : LoopMain σ ι) (s0 : σ) : Prop :=
  ∀ (inputs : Nat → ι) (n : Nat), m.cond (iterState m s0 inputs n) = true

/-- `main` of `Inclinometer.c`: LED pin setup, `setup_dormant_wakeup`,
one notification blink, `enter_dormant_p1_7`, ten post-wake toggles,
then the endless LED blink loop (`while (true)`).  There is no
statement after the loop. -/
def inclinometer_main : LoopMain Unit Unit :=
  ⟨ [ .gpioInit PICO_DEFAULT_LED_PIN, .gpioSetDir PICO_DEFAULT_LED_PIN true ] ++
    setup_dormant_wakeup WAKE_PIN ++
    [ .gpioPut PICO_DEFAULT_LED_PIN true, .sleepMs 100
    , .gpioPut PICO_DEFAULT_LED_PIN false, .sleepMs 500 ] ++
    enter_dormant_p1_7 ++
    (List.range 10).flatMap
      (fun _ => [Event.gpioToggle PICO_DEFAULT_LED_PIN, Event.sleepMs 50])
  , fun _ => true
  , fun _ _ =>
      ( [ .gpioPut PICO_DEFAULT_LED_PIN true, .sleepMs 1000
        , .gpioPut PICO_DEFAULT_LED_PIN false, .sleepMs 1000 ], () )
  , [] ⟩

/-- `main` of part_000, parameterised by the return code `rc` that
`powman_example_off_for_ms` produced (the straight-line setup includes
that call; `rc` is captured but never used afterwards).  The final loop
is `while (true) tight_loop_contents()`, followed by `return 0`. -/
def main_p000 (_rc : Int) : LoopMain Unit Unit :=
  ⟨ main_p000_init
  , fun _ => true
  , fun _ _ => ([Event.tightLoopContents], ())
  , [ .ret 0 ] ⟩

/-- Straight-line setup of part_001's `main`: clock, stdio, banner
prints, SPI and chip-select pin setup, sensor measurement-mode write,
then arming the repeating timer. -/
def main_p001_init : List Event :=
  [ .setSysClockKhz 125000, .stdioInitAll, .sleepMs 2000
  , .printfSample, .printfSample
  , .spiInit 1000000
  , .gpioSetFunction 18 GPIO_FUNC_SPI
  , .gpioSetFunction 19 GPIO_FUNC_SPI
  , .gpioSetFunction 16 GPIO_FUNC_SPI
  , .gpioInit SPI_ACCEL_CS_PIN, .gpioSetDir SPI_ACCEL_CS_PIN true
  , .gpioPut SPI_ACCEL_CS_PIN true
  , .spiSetFormat ] ++
  adxl367_write_register ADXL367_REG_POWER_CTL 0x02 ++
  [ .sleepMs 100
  , .addRepeatingTimerMs DISPLAY_INTERVAL_MS ]

/-- One iteration of part_001's main loop.  The input `fired` says
whether the repeating-timer interrupt ran (invoking
`repeating_timer_callback`) before the flag check of this iteration.
If `display_update_needed` is observed `true`, the loop first resets it
to `false`, then reads the six data bytes from the sensor, converts and
prints; either way the iteration ends with `__wfi()`. -/
def main_p001_body (s : P1State) (fired : Bool) : List Event × P1State :=
  let s1 := if fired then (repeating_timer_callback s).1 else s
  if s1.display_update_needed then
    ( [Event.flagWrite false] ++ adxl367_read_accel_data_trace ++
      [Event.printfSample, Event.wfi]
    , ⟨false⟩ )
  else
    ([Event.wfi], s1)

/-- `main` of part_001: setup then `while (1)` over `main_p001_body`,
followed by `return 0`. -/
def main_p001 : LoopMain P1State Bool :=
  ⟨ main_p001_init
  , fun _ => true
  , main_p001_body
  , [ .ret 0 ] ⟩

/-! ## Register-file semantics -/

/-- The values currently held by the modelled hardware registers. -/
def RegFile : Type := Reg → Nat

/-- Effect of one event on the register file.  `hw_set_bits` ORs,
`hw_write_masked` replaces the masked field (32-bit complement of the
mask), `r++` increments modulo 2^32; events that are not register
accesses leave the registers unchanged. -/
def applyEvent (regs : RegFile) : Event → RegFile
  | .regWrite r v => fun x => if x = r then v else regs x
  | .regSetBits r b => fun x => if x = r then regs r ||| b else regs x
  | .regWriteMasked r v m =>
      fun x => if x = r then (regs r &&& (m ^^^ 0xFFFFFFFF)) ||| (v &&& m) else regs x
  | .regInc r => fun x => if x = r then (regs r + 1) % 2 ^ 32 else regs x
  | _ => regs

/-- Run a trace over the register file. -/
def execRegs (regs : RegFile) : List Event → RegFile
  | [] => regs
  | e :: es => execRegs (applyEvent regs e) es

/-! ## Helper predicates on events -/

/-- Is the event a store to a hardware register (plain, set-bits, masked
or increment)? -/
def isRegStore : Event → Bool
  | .regWrite _ _ => true
  | .regSetBits _ _ => true
  | .regWriteMasked _ _ _ => true
  | .regInc _ => true
  | _ => false

/-- Is the event a `return` from `main`? -/
def isRet : Event → Bool
  | .ret _ => true
  | _ => false

/-- Is the event a store (plain or set-bits) to the given register? -/
def isStoreTo (r : Reg) : Event → Bool
  | .regWrite x _ => x = r
  | .regSetBits x _ => x = r
  | .regWriteMasked x _ _ => x = r
  | .regInc x => x = r
  | _ => false

/-- Is the event an SPI read (the data phase of a sensor read)? -/
def isSpiRead : Event → Bool
  | .spiRead _ => true
  | _ => false

/-- PWRUP0.STATUS bit of a register value. -/
def pwrupStatus (v : Nat) : Nat := (v >>> POWMAN_PWRUP0_STATUS_LSB) % 2

/-! ## Helper lemmas -/

/-- Setting bits with OR leaves exactly those bits set: masking the
result with the same bits gives them back. -/
theorem or_and_self_bits (x y : Nat) : (x ||| y) &&& y = y := by
  apply Nat.eq_of_testBit_eq
  intro i
  simp [Nat.testBit_or, Nat.testBit_and]
  intro h
  exact Or.inr h

/-- After `hw_set_bits(&powman_hw->state, 0xF0)` the four request bits
read back as set, whatever the register held before. -/
theorem setReq_helper (r0 : RegFile) :
    (applyEvent r0 (Event.regSetBits Reg.powman_state 0xF0)) Reg.powman_state &&& 0xF0 = 0xF0 := by
  simp only [applyEvent, if_pos rfl]
  exact or_and_self_bits _ _

/-- Casting a 16-bit word to `int16_t` and arithmetically shifting right
by two equals sign-extending the word's top 14 bits. -/
theorem axis_word_eq (w : Nat) (hw : w < 65536) :
    asr2 (toInt16 w) = toInt14 (w >>> 2) := by
  unfold asr2 toInt16 toInt14
  rw [Int.fdiv_eq_ediv _ (by norm_num), Nat.shiftRight_eq_div_pow]
  split <;> split <;> omega

/-- Two bytes combined big-endian form a 16-bit word. -/
theorem bytes_word_lt (hi lo : Fin 256) : (hi.val <<< 8) ||| lo.val < 65536 := by
  have h1 : hi.val <<< 8 < 65536 := by
    rw [Nat.shiftLeft_eq]
    have := hi.isLt
    omega
  have h2 : lo.val < 65536 := by
    have := lo.isLt
    omega
  exact Nat.or_lt_two_pow (n := 16) h1 h2

/-- Neither branch of a part_001 loop iteration emits a `return`. -/
theorem p001_body_no_ret (s : P1State) (b : Bool) :
    (main_p001_body s b).1.countP isRet = 0 := by
  obtain ⟨f⟩ := s
  cases f <;> cases b <;> decide

/-! ## Claims -/

/-- Claim C1: `enter_dormant_p1_7` performs, in order, the
state-request-bit write to the POWMAN state register, then
`xosc_dormant()`, then `__wfi()`; and part_000's power-down recipe
writes the USB PHY registers and the low-power regulator voltage before
the sleep request of `powman_example_off_for_ms` is issued. -/
theorem claim_C1_dormant_sequence :
    enter_dormant_p1_7.contains (Event.regSetBits Reg.powman_state 0xF0) = true ∧
    enter_dormant_p1_7.contains Event.xoscDormant = true ∧
    enter_dormant_p1_7.contains Event.wfi = true ∧
    enter_dormant_p1_7.findIdx (isStoreTo Reg.powman_state) <
      enter_dormant_p1_7.findIdx (fun e => e = Event.xoscDormant) ∧
    enter_dormant_p1_7.findIdx (fun e => e = Event.xoscDormant) <
      enter_dormant_p1_7.findIdx (fun e => e = Event.wfi) ∧
    main_p000_init.contains Event.powmanOffRequest = true ∧
    main_p000_init.findIdx (isStoreTo Reg.usb_phy_direct) <
      main_p000_init.findIdx (fun e => e = Event.powmanOffRequest) ∧
    main_p000_init.findIdx (isStoreTo Reg.usb_phy_direct_override) <
      main_p000_init.findIdx (fun e => e = Event.powmanOffRequest) ∧
    main_p000_init.findIdx (isStoreTo Reg.powman_vreg_lp_entry) <
      main_p000_init.findIdx (fun e => e = Event.powmanOffRequest) := by
  decide

/-- Claim C2: for every valid GPIO pin, `setup_dormant_wakeup` makes the
pin a pulled-down input, then writes PWRUP0 three times: first a value
whose ENABLE bit is 0, then a value with only the STATUS bit (clearing
the latched status), then the configuration word whose SOURCE field is
the pin, DIRECTION is high/rising, MODE is level, ENABLE is 1. -/
theorem claim_C2_wakeup_config (gpio_pin : Nat) (h : gpio_pin < 48) :
    setup_dormant_wakeup gpio_pin =
      [ .gpioInit gpio_pin, .gpioSetDir gpio_pin false, .gpioPullDown gpio_pin
      , .regWrite .powman_pwrup0 0
      , .regWrite .powman_pwrup0 (1 <<< POWMAN_PWRUP0_STATUS_LSB)
      , .regWrite .powman_pwrup0 (pwrup_config gpio_pin) ] ∧
    pwrupEnable 0 = 0 ∧
    pwrupStatus (1 <<< POWMAN_PWRUP0_STATUS_LSB) = 1 ∧
    pwrupEnable (1 <<< POWMAN_PWRUP0_STATUS_LSB) = 0 ∧
    pwrupSource (pwrup_config gpio_pin) = gpio_pin ∧
    pwrupDirection (pwrup_config gpio_pin) = POWMAN_PWRUP0_DIRECTION_VALUE_HIGH_RISING ∧
    pwrupMode (pwrup_config gpio_pin) = POWMAN_PWRUP0_MODE_VALUE_LEVEL ∧
    pwrupEnable (pwrup_config gpio_pin) = 1 := by
  have H : ∀ g : Fin 48,
      setup_dormant_wakeup g.val =
        [ .gpioInit g.val, .gpioSetDir g.val false, .gpioPullDown g.val
        , .regWrite .powman_pwrup0 0
        , .regWrite .powman_pwrup0 (1 <<< POWMAN_PWRUP0_STATUS_LSB)
        , .regWrite .powman_pwrup0 (pwrup_config g.val) ] ∧
      pwrupEnable 0 = 0 ∧
      pwrupStatus (1 <<< POWMAN_PWRUP0_STATUS_LSB) = 1 ∧
      pwrupEnable (1 <<< POWMAN_PWRUP0_STATUS_LSB) = 0 ∧
      pwrupSource (pwrup_config g.val) = g.val ∧
      pwrupDirection (pwrup_config g.val) = POWMAN_PWRUP0_DIRECTION_VALUE_HIGH_RISING ∧
      pwrupMode (pwrup_config g.val) = POWMAN_PWRUP0_MODE_VALUE_LEVEL ∧
      pwrupEnable (pwrup_config g.val) = 1 := by
    decide
  exact H ⟨gpio_pin, h⟩

/-- Claim C2 witness: the configuration at the pin the program actually
uses, `WAKE_PIN = 22`. -/
theorem claim_C2_wakeup_config_witness :
    (22 < 48) ∧
    (setup_dormant_wakeup 22 =
      [ .gpioInit 22, .gpioSetDir 22 false, .gpioPullDown 22
      , .regWrite .powman_pwrup0 0
      , .regWrite .powman_pwrup0 (1 <<< POWMAN_PWRUP0_STATUS_LSB)
      , .regWrite .powman_pwrup0 (pwrup_config 22) ] ∧
    pwrupEnable 0 = 0 ∧
    pwrupStatus (1 <<< POWMAN_PWRUP0_STATUS_LSB) = 1 ∧
    pwrupEnable (1 <<< POWMAN_PWRUP0_STATUS_LSB) = 0 ∧
    pwrupSource (pwrup_config 22) = 22 ∧
    pwrupDirection (pwrup_config 22) = POWMAN_PWRUP0_DIRECTION_VALUE_HIGH_RISING ∧
    pwrupMode (pwrup_config 22) = POWMAN_PWRUP0_MODE_VALUE_LEVEL ∧
    pwrupEnable (pwrup_config 22) = 1) :=
  ⟨by decide, claim_C2_wakeup_config 22 (by decide)⟩

/-- Claim C3: in both dormant-entry functions the write at index 0 sets
the pattern 0xF0 in the POWMAN state register, and at every point from
just after that write through the `__wfi()` halt (prefixes of length 1,
2 and 3: after the write, after `xosc_dormant`, after `__wfi`) the four
request bits are still set, whatever the registers held before. -/
theorem claim_C3_req_bits_held (r0 : RegFile) (k : Nat) (h1 : 1 ≤ k) (h3 : k ≤ 3) :
    enter_dormant_p1_7.findIdx (isStoreTo Reg.powman_state) = 0 ∧
    enter_dormant_p1_7.findIdx (fun e => e = Event.wfi) = 2 ∧
    enter_dormant_p1_7_p000.findIdx (isStoreTo Reg.powman_state) = 0 ∧
    enter_dormant_p1_7_p000.findIdx (fun e => e = Event.wfi) = 2 ∧
    (execRegs r0 (enter_dormant_p1_7.take k)) Reg.powman_state &&& 0xF0 = 0xF0 ∧
    (execRegs r0 (enter_dormant_p1_7_p000.take k)) Reg.powman_state &&& 0xF0 = 0xF0 := by
  refine ⟨by decide, by decide, by decide, by decide, ?_, ?_⟩ <;>
    interval_cases k <;> exact setReq_helper r0

/-- Claim C3 witness: at the all-zero register file, immediately after
the state-request write (prefix of length 1). -/
theorem claim_C3_req_bits_held_witness :
    ((1 : Nat) ≤ 1 ∧ (1 : Nat) ≤ 3) ∧
    (enter_dormant_p1_7.findIdx (isStoreTo Reg.powman_state) = 0 ∧
     enter_dormant_p1_7.findIdx (fun e => e = Event.wfi) = 2 ∧
     enter_dormant_p1_7_p000.findIdx (isStoreTo Reg.powman_state) = 0 ∧
     enter_dormant_p1_7_p000.findIdx (fun e => e = Event.wfi) = 2 ∧
     (execRegs (fun _ => 0) (enter_dormant_p1_7.take 1)) Reg.powman_state &&& 0xF0 = 0xF0 ∧
     (execRegs (fun _ => 0) (enter_dormant_p1_7_p000.take 1)) Reg.powman_state &&& 0xF0 = 0xF0) :=
  ⟨⟨by decide, by decide⟩, claim_C3_req_bits_held (fun _ => 0) 1 (by decide) (by decide)⟩

/-- Claim C4: in each `main` the phases that occur appear in the claimed
relative order.  `Inclinometer.c`: GPIO setup is the first event, the
enabling PWRUP0 write (arming the wake source) precedes the dormant
request (`xosc_dormant`), which precedes the `__wfi` halt, and the
post-wake code loops.  part_000: the clock setup is first, the GPIO
low-power setup precedes the USB PHY disable, which precedes the
alarm-wake arming inside `powman_example_off_for_ms`, which precedes
the power-off request.  part_001: the clock setup is first, the
repeating timer (the wake source) is armed in the straight-line setup,
which contains no `__wfi`, and every loop iteration ends blocked on
`__wfi` — so in every execution the wake source is armed strictly
before the sleep request / blocking halt. -/
theorem claim_C4_linear_flow :
    inclinometer_main.initTrace.head? = some (Event.gpioInit PICO_DEFAULT_LED_PIN) ∧
    inclinometer_main.initTrace.findIdx
        (fun e => e = Event.regWrite Reg.powman_pwrup0 (pwrup_config WAKE_PIN)) <
      inclinometer_main.initTrace.findIdx (fun e => e = Event.xoscDormant) ∧
    inclinometer_main.initTrace.findIdx (fun e => e = Event.xoscDormant) <
      inclinometer_main.initTrace.findIdx (fun e => e = Event.wfi) ∧
    inclinometer_main.initTrace.contains Event.xoscDormant = true ∧
    inclinometer_main.initTrace.contains Event.wfi = true ∧
    main_p000_init.head? = some Event.setSysClock48mhz ∧
    main_p000_init.findIdx (fun e => e = Event.gpioSetDirAll 0) <
      main_p000_init.findIdx (isStoreTo Reg.usb_phy_direct) ∧
    main_p000_init.findIdx (isStoreTo Reg.usb_phy_direct) <
      main_p000_init.findIdx (fun e => e = Event.powmanEnableAlarmWakeupAtMs SLEEP_TIME_MS) ∧
    main_p000_init.findIdx (fun e => e = Event.powmanEnableAlarmWakeupAtMs SLEEP_TIME_MS) <
      main_p000_init.findIdx (fun e => e = Event.powmanOffRequest) ∧
    main_p000_init.contains (Event.powmanEnableAlarmWakeupAtMs SLEEP_TIME_MS) = true ∧
    main_p000_init.contains Event.powmanOffRequest = true ∧
    main_p001_init.head? = some (Event.setSysClockKhz 125000) ∧
    main_p001_init.contains (Event.addRepeatingTimerMs DISPLAY_INTERVAL_MS) = true ∧
    main_p001_init.contains Event.wfi = false ∧
    (∀ (s : P1State) (fired : Bool),
      (main_p001_body s fired).1.contains Event.wfi = true) := by
  refine ⟨by decide, by decide, by decide, by decide, by decide, by decide, by decide,
    by decide, by decide, by decide, by decide, by decide, by decide, by decide, ?_⟩
  intro s fired
  obtain ⟨f⟩ := s
  cases f <;> cases fired <;> decide

/-- Claim C5 counterexample: the helper `disable_usb` performs two
hardware register stores (one to `phy_direct`, one to
`phy_direct_override`), not exactly one, so the claim that every helper
wraps exactly one register write is false at this helper. -/
theorem claim_C5_counterexample :
    disable_usb.countP isRegStore = 2 ∧
    (disable_usb.countP isRegStore = 1) = False :=
  ⟨by decide, eq_false (by decide)⟩

/-- Claim C5 as amended: each helper is a short fixed sequence of
hardware actions touching only the registers it programs, but not
every helper performs exactly one register store: `disable_usb`
performs exactly two stores, both to USB PHY registers;
`setup_dormant_wakeup` performs exactly three stores, all to PWRUP0,
besides its GPIO pin configuration; the chip-select helpers each
perform a single GPIO write; and the ADXL367 SPI helpers perform SPI
transactions framed by the chip-select writes, with no direct register
store. -/
theorem claim_C5_amended :
    disable_usb.countP isRegStore = 2 ∧
    disable_usb.all
      (fun e => isStoreTo Reg.usb_phy_direct e || isStoreTo Reg.usb_phy_direct_override e) = true ∧
    (∀ g : Nat, (setup_dormant_wakeup g).countP isRegStore = 3 ∧
      (setup_dormant_wakeup g).countP (isStoreTo Reg.powman_pwrup0) = 3) ∧
    cs_select.length = 1 ∧
    cs_select.countP isRegStore = 0 ∧
    cs_deselect.length = 1 ∧
    cs_deselect.countP isRegStore = 0 ∧
    (∀ a d : Nat, (adxl367_write_register a d).countP isRegStore = 0 ∧
      (adxl367_write_register a d).length = 3) ∧
    (∀ a l : Nat, (adxl367_read_registers a l).countP isRegStore = 0) :=
  ⟨by decide, by decide, fun _ => ⟨rfl, rfl⟩, by decide, by decide, by decide, by decide,
    fun _ _ => ⟨rfl, rfl⟩, fun _ _ => rfl⟩

/-- Claim C6: part_000's `main` captures the return code of
`powman_example_off_for_ms` but never branches on it: the whole program
shape — setup, loop condition, loop body and the code after the loop —
is the same function of the program for every return value, and it does
issue the off call and then loop endlessly on `tight_loop_contents`. -/
theorem claim_C6_rc_ignored (rc rc' : Int) :
    main_p000 rc = main_p000 rc' ∧
    (main_p000 rc).initTrace = main_p000_init ∧
    main_p000_init.contains Event.powmanOffRequest = true ∧
    (main_p000 rc).body () () = ([Event.tightLoopContents], ()) :=
  ⟨rfl, rfl, by decide, rfl⟩

/-- Claim C6 witness: at the concrete return codes 0 and -1. -/
theorem claim_C6_rc_ignored_witness :
    main_p000 0 = main_p000 (-1) ∧
    (main_p000 0).initTrace = main_p000_init ∧
    main_p000_init.contains Event.powmanOffRequest = true ∧
    (main_p000 0).body () () = ([Event.tightLoopContents], ()) :=
  claim_C6_rc_ignored 0 (-1)

/-- Claim C7: the repeating-timer callback's entire effect on the shared
state is setting `display_update_needed` to `true`, and it returns
`true` so the timer continues; and whenever a main-loop iteration reads
the sensor, the flag had been observed `true` (after any callback run)
and the iteration's trace resets the flag to `false` strictly before
the SPI data read, leaving the flag `false`. -/
theorem claim_C7_flag_discipline :
    (∀ s : P1State, repeating_timer_callback s = (⟨true⟩, true)) ∧
    ∀ (s : P1State) (fired : Bool),
      (main_p001_body s fired).1.countP isSpiRead > 0 →
        (if fired then (repeating_timer_callback s).1 else s).display_update_needed = true ∧
        (main_p001_body s fired).1.findIdx (fun e => e = Event.flagWrite false) <
          (main_p001_body s fired).1.findIdx isSpiRead ∧
        (main_p001_body s fired).2 = ⟨false⟩ := by
  refine ⟨fun _ => rfl, ?_⟩
  intro s fired
  obtain ⟨f⟩ := s
  cases f <;> cases fired <;> decide

/-- Claim C7 witness: an iteration in which the timer fired with the
flag previously clear does read the sensor, and satisfies the
discipline. -/
theorem claim_C7_flag_discipline_witness :
    (main_p001_body ⟨false⟩ true).1.countP isSpiRead > 0 ∧
    ((if true then (repeating_timer_callback ⟨false⟩).1 else ⟨false⟩).display_update_needed = true ∧
     (main_p001_body ⟨false⟩ true).1.findIdx (fun e => e = Event.flagWrite false) <
       (main_p001_body ⟨false⟩ true).1.findIdx isSpiRead ∧
     (main_p001_body ⟨false⟩ true).2 = ⟨false⟩) :=
  ⟨by decide, claim_C7_flag_discipline.2 ⟨false⟩ true (by decide)⟩

/-- Claim C8: every `main` ends in a loop whose condition is constantly
`true` at every reachable iteration state, whatever the interrupt
inputs, so none of them ever exits its final loop; no `return` is
executed in the setup or in any loop iteration, and the trailing
`return 0` of part_000 and part_001 sits in the (never reached) code
after the loop, while `Inclinometer.c` has no statement after its loop
at all. -/
theorem claim_C8_never_returns :
    neverExits inclinometer_main () ∧
    inclinometer_main.afterTrace = [] ∧
    inclinometer_main.initTrace.countP isRet = 0 ∧
    (∀ (inputs : Nat → Unit) (n : Nat),
      (iterTrace inclinometer_main () inputs n).countP isRet = 0) ∧
    (∀ rc : Int, neverExits (main_p000 rc) ()) ∧
    (main_p000 0).afterTrace.countP isRet = 1 ∧
    main_p000_init.countP isRet = 0 ∧
    (∀ (rc : Int) (inputs : Nat → Unit) (n : Nat),
      (iterTrace (main_p000 rc) () inputs n).countP isRet = 0) ∧
    (∀ s0 : P1State, neverExits main_p001 s0) ∧
    main_p001.afterTrace.countP isRet = 1 ∧
    main_p001_init.countP isRet = 0 ∧
    (∀ (s0 : P1State) (inputs : Nat → Bool) (n : Nat),
      (iterTrace main_p001 s0 inputs n).countP isRet = 0) := by
  refine ⟨fun _ _ => rfl, rfl, by decide, fun _ _ => rfl,
    fun _ _ _ => rfl, by decide, by decide, fun _ _ _ => rfl,
    fun _ _ _ => rfl, by decide, by decide, ?_⟩
  intro s0 inputs n
  exact p001_body_no_ret _ _

/-- Claim C9: the macro `RP2350_STATE_REQ_P1_7_ALL_OFF`, with the
grouping C precedence gives its unparenthesised mix of `&` and `|`,
evaluates to exactly 0xF0 — the four power-domain request bits at
register bit positions 4, 5, 6 and 7 — which is the same constant
`enter_dormant_p1_7` writes as the literal in its `hw_set_bits` call. -/
theorem claim_C9_macro_value :
    RP2350_STATE_REQ_P1_7_ALL_OFF = 0xF0 ∧
    RP2350_STATE_REQ_P1_7_ALL_OFF =
      (1 <<< 4) ||| (1 <<< 5) ||| (1 <<< 6) ||| (1 <<< 7) ∧
    enter_dormant_p1_7.contains
      (Event.regSetBits Reg.powman_state RP2350_STATE_REQ_P1_7_ALL_OFF) = true := by
  decide

/-- Claim C10: for every 6-byte buffer of `uint8_t`,
`adxl367_read_accel_data` produces each axis by combining its byte pair
big-endian into a signed 16-bit integer and arithmetically shifting
right by 2, which equals the sign-extended top 14 bits of the word; and
its trace issues the read command for register 0x0E followed by a
6-byte data read. -/
theorem claim_C10_accel_decode (data : Fin 6 → Fin 256) :
    adxl367_read_accel_data data =
      (toInt14 ((((data 0).val <<< 8) ||| (data 1).val) >>> 2),
       toInt14 ((((data 2).val <<< 8) ||| (data 3).val) >>> 2),
       toInt14 ((((data 4).val <<< 8) ||| (data 5).val) >>> 2)) ∧
    adxl367_read_accel_data_trace =
      [ Event.gpioPut SPI_ACCEL_CS_PIN false
      , Event.spiWrite [ADXL367_SPI_READ_CMD, ADXL367_REG_DATA_START]
      , Event.spiRead 6
      , Event.gpioPut SPI_ACCEL_CS_PIN true ] ∧
    ADXL367_REG_DATA_START = 0x0E := by
  refine ⟨?_, by decide, by decide⟩
  unfold adxl367_read_accel_data adxl367_axis
  rw [axis_word_eq _ (bytes_word_lt (data 0) (data 1)),
    axis_word_eq _ (bytes_word_lt (data 2) (data 3)),
    axis_word_eq _ (bytes_word_lt (data 4) (data 5))]
